import Mathlib

/-!
Verification of the API-client layer of the keygen-admin-gui repository.

The repository contains two implementations of the HTTP client:

* the complete client (`apiFetch` / `retryWithBackoff` / `parseValidationErrors` /
  `getAuthToken` / `getAccountId` and the `api.get/post/patch/delete` entry
  points that wrap `retryWithBackoff` around `apiFetch`), and
* the minimal client (`apiRequest` in `src/lib/api.ts`), together with the
  login flow of `auth-provider.tsx` that persists credentials.

The network is modelled as an oracle: a list of `Response` values, one per
HTTP attempt actually issued.  A response carries its status code, the parsed
integer value of its `Retry-After` header (`none` when the header is absent),
and its parsed JSON body (`none` when the body is empty or not valid JSON,
i.e. when `response.json()` would reject).  Waiting (`setTimeout`) is recorded
as a list of millisecond delays, and the `localStorage.removeItem` call of the
401 branch is recorded as a counter, in a `FetchTrace`.

JavaScript TypeErrors are modelled explicitly: a plain (non-`?.`) property
access on the JSON value `null` throws, so a body parsing to literal `null`
makes the 401/422/generic error branches reject with an uncaught TypeError
(`FetchResult.jsTypeError`) rather than a classified error, and
`parseValidationErrors` throws on a `null` errors entry or on a `.replace`
call against a non-string pointer.  Request headers are modelled at two
levels: the case-sensitive string record the complete client builds
(`buildHeaders`), and the case-insensitive `Headers` object of the Fetch
standard (`headersOf`/`headersAppend`/`headersSet`/`headersGet`) that `fetch`
derives from it on the wire, which combines record keys differing only in
case.
-/

namespace KeygenClient

/-- JSON values, as produced by `response.json()`. -/
inductive Json where
  | null : Json
  | bool (b : Bool) : Json
  | num (n : Int) : Json
  | str (s : String) : Json
  | arr (elems : List Json) : Json
  | obj (fields : List (String × Json)) : Json

/-- Property access `j.key` on a parsed JSON value: a lookup when `j` is an
object, `undefined` (here `none`) otherwise. -/
def Json.get? : Json → String → Option Json
  | Json.obj fields, key => (fields.find? (fun p => p.1 == key)).map (fun p => p.2)
  | _, _ => none

/-- Optional chaining `v?.key`: `undefined` propagates. -/
def optGet (v : Option Json) (key : String) : Option Json :=
  v.bind (fun j => j.get? key)

/-- Optional chaining `v?.[i]` for an array index. -/
def optIdx (v : Option Json) (i : Nat) : Option Json :=
  match v with
  | some (Json.arr elems) => elems.get? i
  | _ => none

/-- JavaScript truthiness of a possibly-undefined JSON value: `undefined`,
`null`, `false`, `0` and the empty string are falsy, everything else truthy. -/
def jsTruthy : Option Json → Bool
  | none => false
  | some Json.null => false
  | some (Json.bool b) => b
  | some (Json.num n) => n != 0
  | some (Json.str s) => s != ""
  | some (Json.arr _) => true
  | some (Json.obj _) => true

/-- The expression `v || fallbackString`: `v` when truthy, else the string. -/
def jsOrStr (v : Option Json) (fallback : String) : Json :=
  if jsTruthy v then v.getD Json.null else Json.str fallback

/-- Replace the first occurrence of `pat` in a character list, as JavaScript
`String.prototype.replace` does with a string pattern. -/
def replaceFirstAux (pat repl : List Char) : List Char → List Char
  | [] => []
  | c :: cs =>
    if List.isPrefixOf pat (c :: cs) then repl ++ List.drop pat.length (c :: cs)
    else c :: replaceFirstAux pat repl cs

/-- JavaScript `s.replace(pat, repl)` for a string pattern: first occurrence
only. -/
def replaceFirst (s pat repl : String) : String :=
  String.mk (replaceFirstAux pat.data repl.data s.data)

/-- A field-level validation error, `ValidationError` in the source.  The
source code can place `undefined` in any of the three fields at runtime
(e.g. `code` when the server sent none), so each field is an `Option Json`. -/
structure ValidationError where
  field : Option Json
  message : Option Json
  code : Option Json

/-- Filter condition of `parseValidationErrors`:
`err.source?.pointer || err.source?.parameter` (JavaScript truthiness). -/
def hasSourceHint (e : Json) : Bool :=
  jsTruthy (optGet (e.get? "source") "pointer") ||
    jsTruthy (optGet (e.get? "source") "parameter")

/-- The map step of `parseValidationErrors`:
`field` is `err.source.pointer?.replace('/data/attributes/', '') || err.source.parameter`,
`message` is `err.detail || err.title`, `code` is `err.code`.
A non-string truthy `pointer` would make the source throw a `TypeError`
(`replace` is not a function); theorems about documents exclude that case via
a well-formedness hypothesis, and this model maps it to `none`. -/
def mkValidationError (e : Json) : ValidationError :=
  let replaced : Option Json :=
    match optGet (e.get? "source") "pointer" with
    | some (Json.str s) => some (Json.str (replaceFirst s "/data/attributes/" ""))
    | _ => none
  ⟨if jsTruthy replaced then replaced else optGet (e.get? "source") "parameter",
   if jsTruthy (e.get? "detail") then e.get? "detail" else e.get? "title",
   e.get? "code"⟩

/-- True exactly for the JSON value `null`.  A *plain* (non-`?.`) property
access on `null` throws a TypeError in JavaScript, and `response.json()`
resolves with `null` for a body of literal `null`, so the branches below must
distinguish it. -/
def isJsonNull : Json → Bool
  | Json.null => true
  | _ => false

/-- True when the map step of `parseValidationErrors` would throw on this
entry: `pointer?.replace(...)` calls `.replace` on any non-nullish `pointer`,
so a `pointer` that is neither absent, nor `null`, nor a string makes the
call throw a TypeError (`replace` is undefined on it). -/
def pointerCallThrows (e : Json) : Bool :=
  match optGet (e.get? "source") "pointer" with
  | none => false
  | some Json.null => false
  | some (Json.str _) => false
  | some _ => true

/-- Source `parseValidationErrors`, with its TypeErrors made explicit:
the call throws (`Except.error`) when `errorData` is `null` (the guard's
plain access `errorData.errors` throws), or when the `errors` array contains
a `null` entry (the filter callback's plain access `err.source` throws), or
when a filtered entry's `pointer` is non-nullish and non-string (the map
callback's `.replace` call throws).  Otherwise it returns `[]` unless
`errorData.errors` is an array (a falsy or non-array `errors` is rejected by
`!errorData.errors || !Array.isArray(errorData.errors)`; every array is
truthy, so the guard is exactly "not an array"), and the filtered, mapped
list for an array. -/
def parseValidationErrors (errorData : Json) : Except Unit (List ValidationError) :=
  if isJsonNull errorData then Except.error ()
  else
    match errorData.get? "errors" with
    | some (Json.arr errs) =>
      if errs.any isJsonNull then Except.error ()
      else if (errs.filter hasSourceHint).any pointerCallThrows then Except.error ()
      else Except.ok ((errs.filter hasSourceHint).map mkValidationError)
    | _ => Except.ok []

/-- The `ApiError` class of the source: message (a JSON value, since the
source passes whatever `errors?.[0]?.detail` evaluates to), HTTP status,
optional code, optional validation list.  The optional constructor arguments
that the source leaves `undefined` are `none` here. -/
structure ApiError where
  message : Json
  status : Nat
  code : Option Json
  validationErrors : Option (List ValidationError)

/-- One HTTP response as seen by the client: status code, the parsed integer
value of the `Retry-After` header (`none` when absent), and the parsed JSON
body (`none` when `response.json()` would reject: empty or malformed body). -/
structure Response where
  status : Nat
  retryAfter : Option Nat
  body : Option Json

/-- Observable effects of one client call: number of HTTP attempts issued,
the `setTimeout` delays in milliseconds in order, and the number of
`localStorage.removeItem('keygen_token')` calls. -/
structure FetchTrace where
  attempts : Nat
  delays : List Nat
  tokenClears : Nat

/-- Outcome of a client call.  `success` is a resolved promise;
`apiError` a rejection with a classified `ApiError`; `jsonParseError` a
rejection with the raw `SyntaxError` of `response.json()`; `jsTypeError` a
rejection with an uncaught TypeError thrown inside an error-handling branch
(plain property access on a `null` body, or `.replace` called on a
non-string pointer); `transportError` a network-level failure (modelled when
the response oracle is exhausted); `thrownDoc` is the minimal client
rejecting with the raw parsed error document (not a classified error). -/
inductive FetchResult where
  | success (value : Json)
  | apiError (e : ApiError)
  | jsonParseError
  | jsTypeError
  | transportError
  | thrownDoc (d : Json)

/-- True exactly when a result is a rejection with a classified `ApiError`. -/
def isClassifiedApiError : FetchResult → Bool
  | FetchResult.apiError _ => true
  | _ => false

/-- The `.catch(() => ({errors: [{detail: fallbackDetail}]}))` applied to
`response.json()`: the parsed body when parsing succeeds, else the fallback
error document. -/
def errorDataOr (body : Option Json) (fallbackDetail : String) : Json :=
  body.getD (Json.obj [("errors", Json.arr [Json.obj [("detail", Json.str fallbackDetail)]])])

/-- The access `errorData.errors?.[0]?.key` used by every error branch. -/
def firstErrField (d : Json) (key : String) : Option Json :=
  optGet (optIdx (d.get? "errors") 0) key

/-- The error thrown when the internal 429 retry budget is exhausted. -/
def rateLimitError : ApiError :=
  ⟨Json.str "Rate limit exceeded. Please try again later.", 429, none, none⟩

/-- The delay computed by the 429 branch of `apiFetch`:
`retryAfter ? parseInt(retryAfter, 10) * 1000 : 1000` milliseconds. -/
def retryDelayMs (r : Response) : Nat :=
  match r.retryAfter with
  | some secs => secs * 1000
  | none => 1000

/-- Source `apiFetch(endpoint, options, retryCount)`, with the network
abstracted to the list of responses the server returns to the successive
HTTP attempts.  Branches in source order: 401-on-first-attempt (clears the
stored token, throws classified 401), 422 (throws classified 422 with
validation list), 429 (waits `Retry-After` seconds or 1 second and re-issues
while `retryCount < 3`, else throws the rate-limit error), any other non-ok
status (classified error from the body's first `detail` or a generic
`API Error: <status>` message), 204 (resolves with `{}`, body untouched),
else resolve with the parsed body (`response.json()`, whose parse failure is
not caught).  In the 401, 422 and generic branches the plain access
`errorData.errors` throws an uncaught TypeError when the body parsed to the
JSON value `null` (the `.catch` fallback only fires for parse failures, and
`?.` guards only what follows the base access); the 401 branch has already
cleared the token at that point, since `removeItem` precedes the body read
in the source.  The 422 branch likewise surfaces the TypeErrors of
`parseValidationErrors`, which runs before the `ApiError` is built. -/
def apiFetch : List Response → Nat → FetchResult × FetchTrace
  | [], _ => (FetchResult.transportError, ⟨0, [], 0⟩)
  | r :: rest, retryCount =>
    if r.status = 401 ∧ retryCount = 0 then
      if isJsonNull (errorDataOr r.body "Authentication required") then
        (FetchResult.jsTypeError, ⟨1, [], 1⟩)
      else
        (FetchResult.apiError
          ⟨jsOrStr (firstErrField (errorDataOr r.body "Authentication required") "detail")
              "Authentication required",
           401, firstErrField (errorDataOr r.body "Authentication required") "code", none⟩,
         ⟨1, [], 1⟩)
    else if r.status = 422 then
      match parseValidationErrors (errorDataOr r.body "Validation failed") with
      | Except.error _ => (FetchResult.jsTypeError, ⟨1, [], 0⟩)
      | Except.ok l =>
        (FetchResult.apiError
          ⟨jsOrStr (firstErrField (errorDataOr r.body "Validation failed") "detail")
              "Validation failed",
           422, firstErrField (errorDataOr r.body "Validation failed") "code", some l⟩,
         ⟨1, [], 0⟩)
    else if r.status = 429 then
      if retryCount < 3 then
        ((apiFetch rest (retryCount + 1)).1,
         ⟨(apiFetch rest (retryCount + 1)).2.attempts + 1,
          retryDelayMs r :: (apiFetch rest (retryCount + 1)).2.delays,
          (apiFetch rest (retryCount + 1)).2.tokenClears⟩)
      else
        (FetchResult.apiError rateLimitError, ⟨1, [], 0⟩)
    else if ¬ (200 ≤ r.status ∧ r.status < 300) then
      if isJsonNull (errorDataOr r.body "An unknown error occurred") then
        (FetchResult.jsTypeError, ⟨1, [], 0⟩)
      else
        (FetchResult.apiError
          ⟨jsOrStr (firstErrField (errorDataOr r.body "An unknown error occurred") "detail")
              ("API Error: " ++ toString r.status),
           r.status, firstErrField (errorDataOr r.body "An unknown error occurred") "code",
           none⟩,
         ⟨1, [], 0⟩)
    else if r.status = 204 then
      (FetchResult.success (Json.obj []), ⟨1, [], 0⟩)
    else
      match r.body with
      | some v => (FetchResult.success v, ⟨1, [], 0⟩)
      | none => (FetchResult.jsonParseError, ⟨1, [], 0⟩)

/-- Status of a result thrown by `apiFetch`, used by the wrapper's
`error instanceof ApiError && error.status === 429` test. -/
def retryLoopBody (maxRetries baseDelay : Nat) : List Nat → List Response → FetchResult × FetchTrace
  | [], _ => (FetchResult.transportError, ⟨0, [], 0⟩)
  | attempt :: laterAttempts, responses =>
    match apiFetch responses 0 with
    | (FetchResult.apiError e, tr) =>
      if e.status = 429 ∧ attempt < maxRetries then
        ((retryLoopBody maxRetries baseDelay laterAttempts (responses.drop tr.attempts)).1,
         ⟨tr.attempts +
            (retryLoopBody maxRetries baseDelay laterAttempts (responses.drop tr.attempts)).2.attempts,
          tr.delays ++ baseDelay * 2 ^ attempt ::
            (retryLoopBody maxRetries baseDelay laterAttempts (responses.drop tr.attempts)).2.delays,
          tr.tokenClears +
            (retryLoopBody maxRetries baseDelay laterAttempts (responses.drop tr.attempts)).2.tokenClears⟩)
      else (FetchResult.apiError e, tr)
    | (res, tr) => (res, tr)

/-- Source `retryWithBackoff(fn, maxRetries, baseDelay)` where `fn` issues a
fresh `apiFetch(..., 0)` call: the `for (attempt = 0; attempt <= maxRetries)`
loop is the recursion over the attempt indices `[0, ..., maxRetries]`.  An
iteration whose `fn()` rejects with an `ApiError` of status 429 while
`attempt < maxRetries` waits `baseDelay * 2 ^ attempt` and continues;
every other outcome (success, non-429 error, non-`ApiError` rejection)
ends the loop at once.  The `throw lastError` after the loop is unreachable
(the last iteration never continues) and is modelled by the `[]` case of
`retryLoopBody`. -/
def retryWithBackoff (responses : List Response) (maxRetries baseDelay : Nat) :
    FetchResult × FetchTrace :=
  retryLoopBody maxRetries baseDelay (List.range (maxRetries + 1)) responses

/-- A public entry-point call (`api.get` / `api.post` / `api.patch` /
`api.delete`): `retryWithBackoff(() => apiFetch(...))` with the default
`maxRetries = 3` and `baseDelay = 1000`. -/
def apiCall (responses : List Response) : FetchResult × FetchTrace :=
  retryWithBackoff responses 3 1000

/-- Assignment `record[key] = value` on a JavaScript string record: update the
existing key in place, else append. -/
def recordSet : List (String × String) → String → String → List (String × String)
  | [], key, value => [(key, value)]
  | p :: t, key, value =>
    if p.1 == key then (key, value) :: t else p :: recordSet t key value

/-- Read `record[key]` from a JavaScript string record. -/
def recordGet : List (String × String) → String → Option String
  | [], _ => none
  | p :: t, key => if p.1 == key then some p.2 else recordGet t key

/-- Header construction of `apiFetch` (part_009, lines 102–118): start from
the two defaults, copy every caller-supplied entry over them, then, when a
token is stored, set `Authorization` to `Bearer <token>` last. -/
def buildHeaders (token : Option String) (callerHeaders : List (String × String)) :
    List (String × String) :=
  let base := recordSet (recordSet [] "Content-Type" "application/vnd.api+json")
      "Accept" "application/vnd.api+json"
  let merged := callerHeaders.foldl (fun m p => recordSet m p.1 p.2) base
  match token with
  | some t => recordSet merged "Authorization" ("Bearer " ++ t)
  | none => merged

/-- Lower-casing of a header name, as the case-insensitive `Headers` object
normalizes names (written over the character list so that it reduces). -/
def lowerName (s : String) : String :=
  String.mk (s.data.map Char.toLower)

/-- `Headers.append(name, value)` of the Fetch standard: header names are
case-insensitive (stored lower-cased) and appending to an existing name
combines the values with a comma and space. -/
def headersAppend : List (String × String) → String → String → List (String × String)
  | [], name, value => [(lowerName name, value)]
  | p :: t, name, value =>
    if p.1 == lowerName name then (p.1, p.2 ++ ", " ++ value) :: t
    else p :: headersAppend t name value

/-- `Headers.set(name, value)` of the Fetch standard: case-insensitive
replace-or-append of a single combined value. -/
def headersSet : List (String × String) → String → String → List (String × String)
  | [], name, value => [(lowerName name, value)]
  | p :: t, name, value =>
    if p.1 == lowerName name then (lowerName name, value) :: t
    else p :: headersSet t name value

/-- `Headers.get(name)` of the Fetch standard: case-insensitive lookup of the
combined value. -/
def headersGet : List (String × String) → String → Option String
  | [], _ => none
  | p :: t, name => if p.1 == lowerName name then some p.2 else headersGet t name

/-- Conversion of a plain record to a `Headers` object, as `fetch` performs
on the `headers` init member: each entry is `append`ed in insertion order,
so two record keys differing only in case are combined into one
case-insensitive wire header. -/
def headersOf (record : List (String × String)) : List (String × String) :=
  record.foldl (fun m p => headersAppend m p.1 p.2) []

/-- Header construction of `apiRequest` (`src/lib/api.ts`, lines 27–33):
`new Headers(options.headers)` (case-insensitive append), then `set`
overwrites `Content-Type`, `Accept`, and — when a token is stored —
`Authorization`. -/
def apiRequestHeaders (token : Option String) (callerHeaders : List (String × String)) :
    List (String × String) :=
  let h0 := headersOf callerHeaders
  let h1 := headersSet h0 "Content-Type" "application/vnd.api+json"
  let h2 := headersSet h1 "Accept" "application/vnd.api+json"
  match token with
  | some t => headersSet h2 "Authorization" ("Bearer " ++ t)
  | none => h2

/-- Source `apiRequest` of the minimal client (`src/lib/api.ts`), per
response: 204 resolves with `{}` before any body read; otherwise
`await response.json()` (its parse failure is NOT caught and escapes as the
raw `SyntaxError`); a non-ok status then throws the parsed document itself
(`throw data as KeygenError`), not a classified error. -/
def apiRequest (r : Response) : FetchResult :=
  if r.status = 204 then FetchResult.success (Json.obj [])
  else
    match r.body with
    | none => FetchResult.jsonParseError
    | some d =>
      if 200 ≤ r.status ∧ r.status < 300 then FetchResult.success d
      else FetchResult.thrownDoc d

/-- The browser-local key-value store (`localStorage`). -/
def Store := List (String × String)

/-- `localStorage.setItem`. -/
def setItem (s : Store) (key value : String) : Store :=
  recordSet s key value

/-- `localStorage.getItem`. -/
def getItem (s : Store) (key : String) : Option String :=
  recordGet s key

/-- The `login` operation of `auth-provider.tsx` (lines 52–60): persists the
account id, admin token and base URL under its three keys. -/
def login (accId tok url : String) (s : Store) : Store :=
  setItem (setItem (setItem s "keygen_account_id" accId) "keygen_admin_token" tok)
    "keygen_base_url" url

/-- Source `getAuthToken` of the complete client (part_009): reads the key
`keygen_token`. -/
def getAuthToken (s : Store) : Option String :=
  getItem s "keygen_token"

/-- Source `getAccountId` of the complete client (part_009): reads the key
`keygen_account`. -/
def getAccountId (s : Store) : Option String :=
  getItem s "keygen_account"

/-- Spec-side reading of "`source.pointer` or `source.parameter` is present"
for claim C5: the field is supplied as a nonempty string.  To be compared
with the source filter `hasSourceHint`. -/
def specSourcePresent (e : Json) : Bool :=
  (match optGet (e.get? "source") "pointer" with
   | some (Json.str s) => s != ""
   | _ => false) ||
  (match optGet (e.get? "source") "parameter" with
   | some (Json.str s) => s != ""
   | _ => false)

/-- A possibly-absent JSON field that is a string whenever it is present
(the error-document shape of the spec: `title?`, `detail?`, `code?`,
`pointer?`, `parameter?` are strings). -/
def strOrAbsent (v : Option Json) : Prop :=
  ∀ j, v = some j → ∃ s, j = Json.str s

/-- Well-formedness of one error entry's `source` member for claim C5. -/
def sourceFieldsWF (e : Json) : Prop :=
  strOrAbsent (optGet (e.get? "source") "pointer") ∧
    strOrAbsent (optGet (e.get? "source") "parameter")

/-- Well-formedness of one entry of a JSON:API error document for claim C5:
error objects are JSON objects (a `null` entry makes the source's filter
callback throw) whose `source.pointer`/`source.parameter`, when present, are
strings — the error-document shape of the spec, where `pointer` and
`parameter` are optional string members of `source`. -/
def errEntryWF (e : Json) : Prop :=
  (∃ fields, e = Json.obj fields) ∧ sourceFieldsWF e

/-- The HTTP status carried by a classified rejection, if any. -/
def resultStatus : FetchResult → Option Nat
  | FetchResult.apiError e => some e.status
  | _ => none

/-- The message carried by a classified rejection, if any. -/
def resultMessage : FetchResult → Option Json
  | FetchResult.apiError e => some e.message
  | _ => none

/-- The validation list carried by a classified rejection, if any. -/
def resultValidationErrors : FetchResult → Option (List ValidationError)
  | FetchResult.apiError e => e.validationErrors
  | _ => none

/-! ### Helper lemmas -/

theorem recordGet_recordSet_self (m : List (String × String)) (k v : String) :
    recordGet (recordSet m k v) k = some v := by
  induction m with
  | nil => simp [recordSet, recordGet]
  | cons p t ih =>
    by_cases hp : p.1 == k
    · simp [recordSet, recordGet, hp]
    · simp [recordSet, recordGet, hp, ih]

theorem recordGet_recordSet_ne (m : List (String × String)) (k k' v : String)
    (hne : (k' == k) = false) :
    recordGet (recordSet m k' v) k = recordGet m k := by
  induction m with
  | nil => simp [recordSet, recordGet, hne]
  | cons p t ih =>
    by_cases hp : p.1 == k'
    · have : (p.1 == k) = false := by
        have h1 : p.1 = k' := by simpa using hp
        simpa [h1] using hne
      simp [recordSet, recordGet, hp, hne, this]
    · simp [recordSet, recordGet, hp, ih]

theorem headersGet_headersSet_self (m : List (String × String)) (name v : String) :
    headersGet (headersSet m name v) name = some v := by
  induction m with
  | nil => simp [headersSet, headersGet]
  | cons p t ih =>
    by_cases hp : p.1 == lowerName name
    · simp [headersSet, headersGet, hp]
    · simp [headersSet, headersGet, hp, ih]

theorem apiFetch_cons_429 (r : Response) (rest : List Response) (rc : Nat)
    (h : r.status = 429) (hlt : rc < 3) :
    apiFetch (r :: rest) rc =
      ((apiFetch rest (rc + 1)).1,
       ⟨(apiFetch rest (rc + 1)).2.attempts + 1,
        retryDelayMs r :: (apiFetch rest (rc + 1)).2.delays,
        (apiFetch rest (rc + 1)).2.tokenClears⟩) := by
  simp [apiFetch, h, hlt]

theorem apiFetch_429_exhaust (r : Response) (rest : List Response)
    (h : r.status = 429) :
    apiFetch (r :: rest) 3 = (FetchResult.apiError rateLimitError, ⟨1, [], 0⟩) := by
  simp [apiFetch, h]

theorem apiFetch_four429 (a b c d : Response) (rest : List Response)
    (ha : a.status = 429) (hb : b.status = 429) (hc : c.status = 429) (hd : d.status = 429) :
    apiFetch (a :: b :: c :: d :: rest) 0 =
      (FetchResult.apiError rateLimitError,
       ⟨4, [retryDelayMs a, retryDelayMs b, retryDelayMs c], 0⟩) := by
  simp [apiFetch, ha, hb, hc, hd]

theorem range_four : List.range 4 = [0, 1, 2, 3] := rfl

theorem apiCall_all429 (r1 r2 r3 r4 r5 r6 r7 r8 r9 r10 r11 r12 r13 r14 r15 r16 : Response)
    (rest : List Response)
    (h1 : r1.status = 429) (h2 : r2.status = 429) (h3 : r3.status = 429) (h4 : r4.status = 429)
    (h5 : r5.status = 429) (h6 : r6.status = 429) (h7 : r7.status = 429) (h8 : r8.status = 429)
    (h9 : r9.status = 429) (h10 : r10.status = 429) (h11 : r11.status = 429)
    (h12 : r12.status = 429) (h13 : r13.status = 429) (h14 : r14.status = 429)
    (h15 : r15.status = 429) (h16 : r16.status = 429) :
    apiCall (r1 :: r2 :: r3 :: r4 :: r5 :: r6 :: r7 :: r8 :: r9 :: r10 :: r11 :: r12 ::
        r13 :: r14 :: r15 :: r16 :: rest) =
      (FetchResult.apiError rateLimitError,
       ⟨16,
        [retryDelayMs r1, retryDelayMs r2, retryDelayMs r3, 1000,
         retryDelayMs r5, retryDelayMs r6, retryDelayMs r7, 2000,
         retryDelayMs r9, retryDelayMs r10, retryDelayMs r11, 4000,
         retryDelayMs r13, retryDelayMs r14, retryDelayMs r15], 0⟩) := by
  have i1 := apiFetch_four429 r1 r2 r3 r4
    (r5 :: r6 :: r7 :: r8 :: r9 :: r10 :: r11 :: r12 :: r13 :: r14 :: r15 :: r16 :: rest)
    h1 h2 h3 h4
  have i2 := apiFetch_four429 r5 r6 r7 r8
    (r9 :: r10 :: r11 :: r12 :: r13 :: r14 :: r15 :: r16 :: rest) h5 h6 h7 h8
  have i3 := apiFetch_four429 r9 r10 r11 r12 (r13 :: r14 :: r15 :: r16 :: rest) h9 h10 h11 h12
  have i4 := apiFetch_four429 r13 r14 r15 r16 rest h13 h14 h15 h16
  simp [apiCall, retryWithBackoff, range_four, retryLoopBody, i1, i2, i3, i4, rateLimitError]


/-! ### Claims C1 - C3 -/

/-- Claim C1, counterexample.  With every HTTP attempt answered 429, a public
entry-point call does not stop after 4 HTTP attempts: it issues 16 (the
`retryWithBackoff` wrapper re-invokes `apiFetch`, which already performs 4
attempts of its own, 4 times), so a 5th HTTP attempt IS issued. -/
theorem claim1_counterexample :
    (apiCall (List.replicate 16 ⟨429, none, none⟩)).2.attempts = 16 ∧
    ¬ (apiCall (List.replicate 16 ⟨429, none, none⟩)).2.attempts = 4 ∧
    5 ≤ (apiCall (List.replicate 16 ⟨429, none, none⟩)).2.attempts := by
  decide

/-- Claim C1 (amended): if the server answers every attempt of a public
entry-point call with HTTP 429, the call fails with a classified error of
status 429 and the rate-limit message after exactly 16 total HTTP attempts
(4 invocations of `apiFetch` by `retryWithBackoff`, each issuing 4 attempts);
a 17th HTTP attempt is never issued, whatever further responses would say. -/
theorem claim1_theorem (r1 r2 r3 r4 r5 r6 r7 r8 r9 r10 r11 r12 r13 r14 r15 r16 : Response)
    (rest : List Response)
    (hall : ∀ r ∈ [r1, r2, r3, r4, r5, r6, r7, r8, r9, r10, r11, r12, r13, r14, r15, r16],
      r.status = 429) :
    (apiCall (r1 :: r2 :: r3 :: r4 :: r5 :: r6 :: r7 :: r8 :: r9 :: r10 :: r11 :: r12 ::
        r13 :: r14 :: r15 :: r16 :: rest)).1 =
      FetchResult.apiError
        ⟨Json.str "Rate limit exceeded. Please try again later.", 429, none, none⟩ ∧
    (apiCall (r1 :: r2 :: r3 :: r4 :: r5 :: r6 :: r7 :: r8 :: r9 :: r10 :: r11 :: r12 ::
        r13 :: r14 :: r15 :: r16 :: rest)).2.attempts = 16 := by
  have h := apiCall_all429 r1 r2 r3 r4 r5 r6 r7 r8 r9 r10 r11 r12 r13 r14 r15 r16 rest
    (hall r1 (by simp)) (hall r2 (by simp)) (hall r3 (by simp)) (hall r4 (by simp))
    (hall r5 (by simp)) (hall r6 (by simp)) (hall r7 (by simp)) (hall r8 (by simp))
    (hall r9 (by simp)) (hall r10 (by simp)) (hall r11 (by simp)) (hall r12 (by simp))
    (hall r13 (by simp)) (hall r14 (by simp)) (hall r15 (by simp)) (hall r16 (by simp))
  rw [h]
  exact ⟨rfl, rfl⟩

/-- Claim C1, witness: the amended theorem at 16 concrete all-429 responses. -/
theorem claim1_witness :
    (apiCall [⟨429, none, none⟩, ⟨429, none, none⟩, ⟨429, none, none⟩, ⟨429, none, none⟩,
        ⟨429, none, none⟩, ⟨429, none, none⟩, ⟨429, none, none⟩, ⟨429, none, none⟩,
        ⟨429, none, none⟩, ⟨429, none, none⟩, ⟨429, none, none⟩, ⟨429, none, none⟩,
        ⟨429, none, none⟩, ⟨429, none, none⟩, ⟨429, none, none⟩, ⟨429, none, none⟩]).1 =
      FetchResult.apiError
        ⟨Json.str "Rate limit exceeded. Please try again later.", 429, none, none⟩ ∧
    (apiCall [⟨429, none, none⟩, ⟨429, none, none⟩, ⟨429, none, none⟩, ⟨429, none, none⟩,
        ⟨429, none, none⟩, ⟨429, none, none⟩, ⟨429, none, none⟩, ⟨429, none, none⟩,
        ⟨429, none, none⟩, ⟨429, none, none⟩, ⟨429, none, none⟩, ⟨429, none, none⟩,
        ⟨429, none, none⟩, ⟨429, none, none⟩, ⟨429, none, none⟩, ⟨429, none, none⟩]).2.attempts =
      16 :=
  claim1_theorem ⟨429, none, none⟩ ⟨429, none, none⟩ ⟨429, none, none⟩ ⟨429, none, none⟩
    ⟨429, none, none⟩ ⟨429, none, none⟩ ⟨429, none, none⟩ ⟨429, none, none⟩
    ⟨429, none, none⟩ ⟨429, none, none⟩ ⟨429, none, none⟩ ⟨429, none, none⟩
    ⟨429, none, none⟩ ⟨429, none, none⟩ ⟨429, none, none⟩ ⟨429, none, none⟩ []
    (by simp)

/-- Claim C2 (confirmed): when the first 3 HTTP attempts return 429 and the
4th returns 200 with a JSON body, `apiFetch` resolves with that body, and
before each re-attempt it waits `Retry-After` seconds (in ms) when the
header is present, else the fixed default of 1 second. -/
theorem claim2_theorem (r1 r2 r3 r4 : Response) (v : Json) (rest : List Response)
    (h1 : r1.status = 429) (h2 : r2.status = 429) (h3 : r3.status = 429)
    (h4 : r4.status = 200) (hb : r4.body = some v) :
    apiFetch (r1 :: r2 :: r3 :: r4 :: rest) 0 =
      (FetchResult.success v,
       ⟨4,
        [(match r1.retryAfter with | some secs => secs * 1000 | none => 1000),
         (match r2.retryAfter with | some secs => secs * 1000 | none => 1000),
         (match r3.retryAfter with | some secs => secs * 1000 | none => 1000)], 0⟩) := by
  simp [apiFetch, h1, h2, h3, h4, hb, retryDelayMs]

/-- Claim C2, witness: the theorem at concrete responses, one with
`Retry-After: 2`, one without, one with `Retry-After: 5`. -/
theorem claim2_witness :
    apiFetch [⟨429, some 2, none⟩, ⟨429, none, none⟩, ⟨429, some 5, none⟩,
        ⟨200, none, some (Json.str "payload")⟩] 0 =
      (FetchResult.success (Json.str "payload"), ⟨4, [2000, 1000, 5000], 0⟩) := by
  have h := claim2_theorem ⟨429, some 2, none⟩ ⟨429, none, none⟩ ⟨429, some 5, none⟩
    ⟨200, none, some (Json.str "payload")⟩ (Json.str "payload") [] rfl rfl rfl rfl rfl
  simpa using h

/-- Claim C3, counterexample.  Four 429 responses without `Retry-After`
followed by a 200: the waits are [1000, 1000, 1000, 1000] ms — two successive
retry waits of the same logical call are equal, not doubled (the doubled
sequence from the 1-second base would be [1000, 2000, 4000, 8000]). -/
theorem claim3_counterexample :
    (apiCall [⟨429, none, none⟩, ⟨429, none, none⟩, ⟨429, none, none⟩, ⟨429, none, none⟩,
        ⟨200, none, some (Json.obj [])⟩]).2.delays = [1000, 1000, 1000, 1000] ∧
    ¬ (apiCall [⟨429, none, none⟩, ⟨429, none, none⟩, ⟨429, none, none⟩, ⟨429, none, none⟩,
        ⟨200, none, some (Json.obj [])⟩]).2.delays = [1000, 2000, 4000, 8000] := by
  decide

/-- Claim C3 (amended): within one `apiFetch` invocation each 429 retry waits
exactly `Retry-After` seconds when the header is present and a fixed 1 second
when it is absent — the delay never doubles; doubling (1s, 2s, 4s) happens
only in the `retryWithBackoff` wrapper between successive whole `apiFetch`
invocations (i.e. after every 4th HTTP attempt), and those wrapper delays
ignore `Retry-After`.  Shown on the full all-429 schedule. -/
theorem claim3_theorem (r1 r2 r3 r4 r5 r6 r7 r8 r9 r10 r11 r12 r13 r14 r15 r16 : Response)
    (rest : List Response)
    (hall : ∀ r ∈ [r1, r2, r3, r4, r5, r6, r7, r8, r9, r10, r11, r12, r13, r14, r15, r16],
      r.status = 429) :
    (apiCall (r1 :: r2 :: r3 :: r4 :: r5 :: r6 :: r7 :: r8 :: r9 :: r10 :: r11 :: r12 ::
        r13 :: r14 :: r15 :: r16 :: rest)).2.delays =
      [(match r1.retryAfter with | some secs => secs * 1000 | none => 1000),
       (match r2.retryAfter with | some secs => secs * 1000 | none => 1000),
       (match r3.retryAfter with | some secs => secs * 1000 | none => 1000),
       1000 * 2 ^ 0,
       (match r5.retryAfter with | some secs => secs * 1000 | none => 1000),
       (match r6.retryAfter with | some secs => secs * 1000 | none => 1000),
       (match r7.retryAfter with | some secs => secs * 1000 | none => 1000),
       1000 * 2 ^ 1,
       (match r9.retryAfter with | some secs => secs * 1000 | none => 1000),
       (match r10.retryAfter with | some secs => secs * 1000 | none => 1000),
       (match r11.retryAfter with | some secs => secs * 1000 | none => 1000),
       1000 * 2 ^ 2,
       (match r13.retryAfter with | some secs => secs * 1000 | none => 1000),
       (match r14.retryAfter with | some secs => secs * 1000 | none => 1000),
       (match r15.retryAfter with | some secs => secs * 1000 | none => 1000)] := by
  have h := apiCall_all429 r1 r2 r3 r4 r5 r6 r7 r8 r9 r10 r11 r12 r13 r14 r15 r16 rest
    (hall r1 (by simp)) (hall r2 (by simp)) (hall r3 (by simp)) (hall r4 (by simp))
    (hall r5 (by simp)) (hall r6 (by simp)) (hall r7 (by simp)) (hall r8 (by simp))
    (hall r9 (by simp)) (hall r10 (by simp)) (hall r11 (by simp)) (hall r12 (by simp))
    (hall r13 (by simp)) (hall r14 (by simp)) (hall r15 (by simp)) (hall r16 (by simp))
  rw [h]
  simp [retryDelayMs]

/-- Claim C3, witness: the amended theorem at concrete responses where the
5th 429 carries `Retry-After: 7` — its own wait is 7000 ms while the wrapper
waits stay 1000/2000/4000 ms. -/
theorem claim3_witness :
    (apiCall [⟨429, none, none⟩, ⟨429, none, none⟩, ⟨429, none, none⟩, ⟨429, none, none⟩,
        ⟨429, some 7, none⟩, ⟨429, none, none⟩, ⟨429, none, none⟩, ⟨429, none, none⟩,
        ⟨429, none, none⟩, ⟨429, none, none⟩, ⟨429, none, none⟩, ⟨429, none, none⟩,
        ⟨429, none, none⟩, ⟨429, none, none⟩, ⟨429, none, none⟩, ⟨429, none, none⟩]).2.delays =
      [1000, 1000, 1000, 1000, 7000, 1000, 1000, 2000, 1000, 1000, 1000, 4000,
       1000, 1000, 1000] := by
  have h := claim3_theorem ⟨429, none, none⟩ ⟨429, none, none⟩ ⟨429, none, none⟩
    ⟨429, none, none⟩ ⟨429, some 7, none⟩ ⟨429, none, none⟩ ⟨429, none, none⟩
    ⟨429, none, none⟩ ⟨429, none, none⟩ ⟨429, none, none⟩ ⟨429, none, none⟩
    ⟨429, none, none⟩ ⟨429, none, none⟩ ⟨429, none, none⟩ ⟨429, none, none⟩
    ⟨429, none, none⟩ [] (by simp)
  simpa using h


/-! ### Claims C4 - C6 -/

/-- Claim C5 (confirmed): for a well-formed JSON:API error document — the
`errors` member an array whose entries are error objects (JSON objects with
string-valued `source.pointer`/`source.parameter` when present) —
`parseValidationErrors` evaluates without throwing and returns exactly one
triple per errors entry whose `source.pointer` or `source.parameter` is
present (as a nonempty string), entries without either excluded; and on the
document with one entry of detail "is required" and pointer
"/data/attributes/name", a 422 response makes the client fail with a
classified 422 error whose list is exactly one entry with field "name" and
message "is required". -/
theorem claim5_theorem :
    (∀ (entries : List Json) (d : Json),
      d.get? "errors" = some (Json.arr entries) →
      (∀ e ∈ entries, errEntryWF e) →
      parseValidationErrors d =
        Except.ok ((entries.filter specSourcePresent).map mkValidationError) ∧
      ∀ l, parseValidationErrors d = Except.ok l →
        l.length = (entries.filter specSourcePresent).length) ∧
    apiCall [⟨422, none, some (Json.obj [("errors", Json.arr [Json.obj
        [("detail", Json.str "is required"),
         ("source", Json.obj [("pointer", Json.str "/data/attributes/name")])]])])⟩] =
      (FetchResult.apiError
        ⟨Json.str "is required", 422, none,
         some [⟨some (Json.str "name"), some (Json.str "is required"), none⟩]⟩,
       ⟨1, [], 0⟩) := by
  constructor
  · intro entries d hd hwf
    have hnotnull : isJsonNull d = false := by
      cases d <;> simp_all [Json.get?, isJsonNull]
    have hnullentry : entries.any isJsonNull = false := by
      rw [List.any_eq_false]
      intro e he
      obtain ⟨⟨fs, rfl⟩, -⟩ := hwf e he
      simp [isJsonNull]
    have hptr : (entries.filter hasSourceHint).any pointerCallThrows = false := by
      rw [List.any_eq_false]
      intro e he
      obtain ⟨-, hp, -⟩ := hwf e (List.mem_of_mem_filter he)
      rcases hptr2 : optGet (e.get? "source") "pointer" with - | j
      · simp [pointerCallThrows, hptr2]
      · obtain ⟨s, rfl⟩ := hp j hptr2
        simp [pointerCallThrows, hptr2]
    have key : ∀ e ∈ entries, hasSourceHint e = specSourcePresent e := by
      intro e he
      obtain ⟨-, hp, hq⟩ := hwf e he
      unfold hasSourceHint specSourcePresent
      rcases hptr2 : optGet (e.get? "source") "pointer" with - | j
      · rcases hpar : optGet (e.get? "source") "parameter" with - | j'
        · simp [jsTruthy]
        · obtain ⟨s, rfl⟩ := hq j' hpar
          simp [jsTruthy]
      · obtain ⟨s, rfl⟩ := hp j hptr2
        rcases hpar : optGet (e.get? "source") "parameter" with - | j'
        · simp [jsTruthy]
        · obtain ⟨s', rfl⟩ := hq j' hpar
          simp [jsTruthy]
    have hfil : entries.filter hasSourceHint = entries.filter specSourcePresent :=
      List.filter_congr key
    have hptr2 : (entries.filter specSourcePresent).any pointerCallThrows = false :=
      hfil ▸ hptr
    have hmain : parseValidationErrors d =
        Except.ok ((entries.filter specSourcePresent).map mkValidationError) := by
      simp [parseValidationErrors, hnotnull, hd, hnullentry, hptr, hptr2, hfil]
    refine ⟨hmain, ?_⟩
    intro l hl
    rw [hmain] at hl
    injection hl with hl
    rw [← hl]
    simp
  · rfl

/-- Claim C5, witness: the universal part applied to the P4 document. -/
theorem claim5_witness :
    parseValidationErrors (Json.obj [("errors", Json.arr [Json.obj
        [("detail", Json.str "is required"),
         ("source", Json.obj [("pointer", Json.str "/data/attributes/name")])]])]) =
      Except.ok [⟨some (Json.str "name"), some (Json.str "is required"), none⟩] := by
  obtain ⟨heq, -⟩ := claim5_theorem.1
    [Json.obj [("detail", Json.str "is required"),
      ("source", Json.obj [("pointer", Json.str "/data/attributes/name")])]]
    (Json.obj [("errors", Json.arr [Json.obj
      [("detail", Json.str "is required"),
       ("source", Json.obj [("pointer", Json.str "/data/attributes/name")])]])])
    rfl
    (by
      intro e he
      simp only [List.mem_singleton] at he
      subst he
      refine ⟨⟨_, rfl⟩, ?_, ?_⟩
      · intro j hj
        refine ⟨"/data/attributes/name", ?_⟩
        simpa [optGet, Json.get?] using hj.symm
      · intro j hj
        simp [optGet, Json.get?] at hj)
  rw [heq]
  rfl

/-- Claim C6 (confirmed): a response with status 204 makes both clients
resolve with the empty success value `{}` and the outcome is independent of
the response body — no parse of the body is attempted, whatever it holds. -/
theorem claim6_theorem (ra : Option Nat) (b1 b2 : Option Json) (rest : List Response)
    (rc : Nat) :
    apiFetch (⟨204, ra, b1⟩ :: rest) rc = (FetchResult.success (Json.obj []), ⟨1, [], 0⟩) ∧
    apiFetch (⟨204, ra, b1⟩ :: rest) rc = apiFetch (⟨204, ra, b2⟩ :: rest) rc ∧
    apiCall (⟨204, ra, b1⟩ :: rest) = (FetchResult.success (Json.obj []), ⟨1, [], 0⟩) ∧
    apiRequest ⟨204, ra, b1⟩ = FetchResult.success (Json.obj []) ∧
    apiRequest ⟨204, ra, b1⟩ = apiRequest ⟨204, ra, b2⟩ := by
  have hf : ∀ (b : Option Json) (k : Nat),
      apiFetch (⟨204, ra, b⟩ :: rest) k = (FetchResult.success (Json.obj []), ⟨1, [], 0⟩) := by
    intro b k
    simp [apiFetch]
  have hr : ∀ b : Option Json, apiRequest ⟨204, ra, b⟩ = FetchResult.success (Json.obj []) := by
    intro b
    simp [apiRequest]
  refine ⟨hf b1 rc, by rw [hf b1 rc, hf b2 rc], ?_, hr b1, by rw [hr b1, hr b2]⟩
  simp [apiCall, retryWithBackoff, range_four, retryLoopBody, hf b1 0]


/-! ### Claims C7 - C10 -/

/-- Claim C7, counterexample.  The complete client's header record is
case-sensitive: a caller entry named `authorization` (lower case) survives
the merge as a key distinct from the injected `Authorization`, and `fetch`
converts the record to a case-insensitive `Headers` object by appending, so
the wire Authorization value is "evil, Bearer tok" — it depends on the
caller's override, refuting the claimed independence. -/
theorem claim7_counterexample :
    headersGet (headersOf (buildHeaders (some "tok") [("authorization", "evil")]))
      "Authorization" = some "evil, Bearer tok" ∧
    headersGet (headersOf (buildHeaders (some "tok") [])) "Authorization" =
      some "Bearer tok" ∧
    ¬ headersGet (headersOf (buildHeaders (some "tok") [("authorization", "evil")]))
        "Authorization" =
      headersGet (headersOf (buildHeaders (some "tok") [])) "Authorization" := by
  refine ⟨rfl, rfl, ?_⟩
  intro h
  rw [show headersGet (headersOf (buildHeaders (some "tok") [("authorization", "evil")]))
      "Authorization" = some "evil, Bearer tok" from rfl,
    show headersGet (headersOf (buildHeaders (some "tok") [])) "Authorization" =
      some "Bearer tok" from rfl] at h
  injection h with h1
  exact absurd h1 (by decide)

/-- Claim C7 (amended): whenever a token is stored, the bearer token always
occupies the exact-case `Authorization` entry of the complete client's header
record, so a caller entry of that exact name can never displace it; but a
caller entry whose name differs only in case survives the case-sensitive
record and is combined into the wire Authorization header by fetch's
case-insensitive `Headers` conversion (the counterexample), so the sent value
is not independent of caller overrides there.  In the minimal client, whose
headers live in a `Headers` object throughout and whose `Headers.set` is
case-insensitive, the sent Authorization is exactly `Bearer <token>` and is
independent of the caller's headers. -/
theorem claim7_theorem (t : String) (callerHeaders otherHeaders : List (String × String)) :
    recordGet (buildHeaders (some t) callerHeaders) "Authorization" = some ("Bearer " ++ t) ∧
    headersGet (apiRequestHeaders (some t) callerHeaders) "Authorization" =
      some ("Bearer " ++ t) ∧
    headersGet (apiRequestHeaders (some t) callerHeaders) "Authorization" =
      headersGet (apiRequestHeaders (some t) otherHeaders) "Authorization" := by
  refine ⟨?_, ?_, ?_⟩
  · simp [buildHeaders, recordGet_recordSet_self]
  · simp [apiRequestHeaders, headersGet_headersSet_self]
  · simp [apiRequestHeaders, headersGet_headersSet_self]

/-- Claim C8, counterexample.  The minimal client (`apiRequest` in
`src/lib/api.ts`, one of the cited sources of the claim) does not catch the
body-parse failure: on a failing status with an unparseable body the
rejection is the raw parse error, not a classified error. -/
theorem claim8_counterexample :
    apiRequest ⟨500, none, none⟩ = FetchResult.jsonParseError ∧
    isClassifiedApiError (apiRequest ⟨500, none, none⟩) = false :=
  ⟨rfl, rfl⟩

/-- Claim C8 (amended): in the complete client (`apiFetch` behind the public
entry points) a failing non-429 response whose body is empty or not valid
JSON still yields a classified error of the response's status carrying one of
the generic fallback messages — the parse failure never escapes.  (A 429
response never parses its body at all and, once retries are exhausted, fails
with the fixed rate-limit message, claim C1.)  In the minimal client
`apiRequest` the parse failure escapes unclassified. -/
theorem claim8_theorem (st : Nat) (ra : Option Nat) (rest : List Response)
    (hnotok : ¬ (200 ≤ st ∧ st < 300)) (h429 : st ≠ 429) :
    isClassifiedApiError (apiCall (⟨st, ra, none⟩ :: rest)).1 = true ∧
    resultStatus (apiCall (⟨st, ra, none⟩ :: rest)).1 = some st ∧
    (resultMessage (apiCall (⟨st, ra, none⟩ :: rest)).1 =
        some (Json.str "Authentication required") ∨
      resultMessage (apiCall (⟨st, ra, none⟩ :: rest)).1 =
        some (Json.str "Validation failed") ∨
      resultMessage (apiCall (⟨st, ra, none⟩ :: rest)).1 =
        some (Json.str "An unknown error occurred")) := by
  by_cases h401 : st = 401
  · subst h401
    have hc : apiCall (⟨401, ra, none⟩ :: rest) =
        (FetchResult.apiError ⟨Json.str "Authentication required", 401, none, none⟩,
         ⟨1, [], 1⟩) := by
      have hf : apiFetch (⟨401, ra, none⟩ :: rest) 0 =
          (FetchResult.apiError ⟨Json.str "Authentication required", 401, none, none⟩,
           ⟨1, [], 1⟩) := by
        simp [apiFetch, errorDataOr, firstErrField, optIdx, optGet, Json.get?, jsOrStr,
          jsTruthy, isJsonNull]
      simp [apiCall, retryWithBackoff, range_four, retryLoopBody, hf]
    simp [hc, isClassifiedApiError, resultStatus, resultMessage]
  · by_cases h422 : st = 422
    · subst h422
      have hc : apiCall (⟨422, ra, none⟩ :: rest) =
          (FetchResult.apiError
            ⟨Json.str "Validation failed", 422, none, some []⟩, ⟨1, [], 0⟩) := by
        have hf : apiFetch (⟨422, ra, none⟩ :: rest) 0 =
            (FetchResult.apiError
              ⟨Json.str "Validation failed", 422, none, some []⟩, ⟨1, [], 0⟩) := by
          simp [apiFetch, errorDataOr, firstErrField, optIdx, optGet, Json.get?, jsOrStr,
            jsTruthy, parseValidationErrors, hasSourceHint, isJsonNull, pointerCallThrows]
        simp [apiCall, retryWithBackoff, range_four, retryLoopBody, hf]
      simp [hc, isClassifiedApiError, resultStatus, resultMessage]
    · have hc : apiCall (⟨st, ra, none⟩ :: rest) =
          (FetchResult.apiError
            ⟨Json.str "An unknown error occurred", st, none, none⟩, ⟨1, [], 0⟩) := by
        have hf : apiFetch (⟨st, ra, none⟩ :: rest) 0 =
            (FetchResult.apiError
              ⟨Json.str "An unknown error occurred", st, none, none⟩, ⟨1, [], 0⟩) := by
          simp [apiFetch, h401, h422, h429, hnotok, errorDataOr, firstErrField, optIdx,
            optGet, Json.get?, jsOrStr, jsTruthy, isJsonNull]
        simp [apiCall, retryWithBackoff, range_four, retryLoopBody, hf, h429]
      simp [hc, isClassifiedApiError, resultStatus, resultMessage]

/-- Claim C8, witness: the amended theorem at a 500 response with an
unparseable body. -/
theorem claim8_witness :
    isClassifiedApiError (apiCall [⟨500, none, none⟩]).1 = true ∧
    resultStatus (apiCall [⟨500, none, none⟩]).1 = some 500 ∧
    (resultMessage (apiCall [⟨500, none, none⟩]).1 =
        some (Json.str "Authentication required") ∨
      resultMessage (apiCall [⟨500, none, none⟩]).1 = some (Json.str "Validation failed") ∨
      resultMessage (apiCall [⟨500, none, none⟩]).1 =
        some (Json.str "An unknown error occurred")) :=
  claim8_theorem 500 none [] (by decide) (by decide)

/-- Claim C10 (confirmed): the login flow persists credentials under
`keygen_account_id` / `keygen_admin_token` / `keygen_base_url`, while the
complete client reads `keygen_token` and `keygen_account`; hence on any
store populated only by `login` operations, `getAuthToken` and
`getAccountId` return null — login followed by the complete client's
credential read never yields the stored token. -/
theorem claim10_theorem (logins : List (String × String × String)) :
    getAuthToken (logins.foldl (fun s x => login x.1 x.2.1 x.2.2 s) ([] : Store)) = none ∧
    getAccountId (logins.foldl (fun s x => login x.1 x.2.1 x.2.2 s) ([] : Store)) = none := by
  have key : ∀ (l : List (String × String × String)) (s : Store),
      getAuthToken s = none → getAccountId s = none →
      getAuthToken (l.foldl (fun s x => login x.1 x.2.1 x.2.2 s) s) = none ∧
      getAccountId (l.foldl (fun s x => login x.1 x.2.1 x.2.2 s) s) = none := by
    intro l
    induction l with
    | nil => intro s h1 h2; exact ⟨h1, h2⟩
    | cons x t ih =>
      intro s h1 h2
      apply ih
      · unfold getAuthToken getItem login setItem
        rw [recordGet_recordSet_ne _ _ _ _ (by decide),
          recordGet_recordSet_ne _ _ _ _ (by decide),
          recordGet_recordSet_ne _ _ _ _ (by decide)]
        exact h1
      · unfold getAccountId getItem login setItem
        rw [recordGet_recordSet_ne _ _ _ _ (by decide),
          recordGet_recordSet_ne _ _ _ _ (by decide),
          recordGet_recordSet_ne _ _ _ _ (by decide)]
        exact h2
  exact key logins [] rfl rfl

end KeygenClient
